import Mathlib

/-
Verification development for the sap.f.DynamicPage control
(src/src/sap.f/src/sap/f/DynamicPage.js).

The control is a scroll-driven header-snap state machine. We embed it
shallowly:

* `State` holds the mutable controller state: the two public behaviour
  properties (headerAlwaysExpanded, headerExpanded), the private boolean
  flags set in init (_bPinned, _bHeaderInTitleArea, _bExpandingWithAClick,
  _headerBiggerThanAllowedHeight), the scroll positions of the content
  wrapper and of the fake scroll bar, the two scroll-echo reentrancy
  flags (allowInnerDiv, allowCustomScroll), the visual state the control
  writes (title sub-region visibility, the snapped class on the title
  area, the hidden class on the header, the pin button visibility, the
  scroll bar classes), and the list of warning messages emitted through
  jQuery.sap.log.warning.  Debug-level log calls are not state and are
  not modelled; ARIA updates and CSS paddings are presentation-only and
  not modelled.

* `Geom` holds what the DOM/environment reports during one event:
  which parts exist, the measured heights, and the Device flags.
  Heights are modelled as natural numbers of pixels;
  wrapperViewportHeight stands for the already ceiled bounding
  rect height of the content wrapper.  titleAreaExists stands for the
  jQuery reference this.titleArea having been cached by
  _cacheDomElements (the exists() check in the source tests that
  reference, which is only missing before the first rendering).

Every definition below mirrors one function of the source file, keeping
its name and its control flow.  JS truthiness of numbers (h || t) is
rendered as a zero test, and the float constant 0.6 as the exact
rational 0.6.
-/

set_option autoImplicit false

namespace DynamicPage

/-- Warning text of _titleExpandCollapseWhenAllowed when the header is
taller than the whole control (message abbreviated, no state). -/
def warnCommandTooTall : String := "couldnt expand header - not enough space to fit on screen"

/-- Warning text of _snapHeader when the title area reference is missing. -/
def warnSnapNoTitle : String := "couldnt snap header - there is no title"

/-- Warning text of _expandHeader when the title area reference is missing. -/
def warnExpandNoTitle : String := "couldnt expand header - there is no title"

/-- Warning text of _titleExpandCollapseWhenAllowed when there is not
enough scrollable content for a scroll-driven snap. -/
def warnSnapNotEnoughContent : String := "couldnt snap header - not enough content to be scrolled"

/-- DynamicPage.HEADER_MAX_ALLOWED_PINNED_PERCENTAGE. -/
def HEADER_MAX_ALLOWED_PINNED_PERCENTAGE : Rat := 0.6

/-- DynamicPage.HEADER_MAX_ALLOWED_NON_SROLLABLE_PERCENTAGE (sic). -/
def HEADER_MAX_ALLOWED_NON_SROLLABLE_PERCENTAGE : Rat := 0.6

/-- Read-only DOM geometry and device environment during one event. -/
structure Geom where
  desktop : Bool
  phone : Bool
  titleExists : Bool
  headerExists : Bool
  titleAreaExists : Bool
  wrapperExists : Bool
  expandedContentExists : Bool
  snappedContentExists : Bool
  titleHeight : Nat
  headerHeight : Nat
  titleAreaHeight : Nat
  ownHeight : Nat
  wrapperScrollHeight : Nat
  wrapperViewportHeight : Nat
  deriving DecidableEq

/-- Mutable controller state of the DynamicPage instance. -/
structure State where
  headerAlwaysExpanded : Bool
  headerExpanded : Bool
  pinned : Bool
  headerInTitleArea : Bool
  expandingWithAClick : Bool
  headerBiggerThanAllowedHeight : Bool
  showExpandContent : Bool
  showSnapContent : Bool
  titleSnapped : Bool
  headerHidden : Bool
  pinButtonVisible : Bool
  wrapperScrollTop : Nat
  scrollBarPosition : Nat
  scrollBarHidden : Bool
  withScrollClass : Bool
  allowInnerDiv : Bool
  allowCustomScroll : Bool
  warnings : List String
  deriving DecidableEq

/-- State right after init(): property defaults headerAlwaysExpanded =
false, headerExpanded = true, and all private flags false. -/
def initState : State where
  headerAlwaysExpanded := false
  headerExpanded := true
  pinned := false
  headerInTitleArea := false
  expandingWithAClick := false
  headerBiggerThanAllowedHeight := false
  showExpandContent := true
  showSnapContent := false
  titleSnapped := false
  headerHidden := false
  pinButtonVisible := true
  wrapperScrollTop := 0
  scrollBarPosition := 0
  scrollBarHidden := false
  withScrollClass := false
  allowInnerDiv := false
  allowCustomScroll := false
  warnings := []

/-- Appends one jQuery.sap.log.warning message. -/
def warn (s : State) (msg : String) : State :=
  {s with warnings := s.warnings ++ [msg]}

/-- _headerAlwaysExpanded: the configured property, unless overridden by
the one-way height flag. -/
def _headerAlwaysExpanded (s : State) : Bool :=
  s.headerAlwaysExpanded && !s.headerBiggerThanAllowedHeight

/-- _getScrollPosition: scroll bar position on desktop, wrapper
scrollTop otherwise. -/
def _getScrollPosition (g : Geom) (s : State) : Nat :=
  if g.desktop then s.scrollBarPosition else s.wrapperScrollTop

/-- _getSnappingHeight: header height if nonzero (JS truthiness of the
short-circuit or), else title height. -/
def _getSnappingHeight (g : Geom) : Nat :=
  if g.headerHeight ≠ 0 then g.headerHeight else g.titleHeight

/-- _getMaxScrollPosition: wrapper scrollHeight minus ceiled bounding
rect height when the wrapper reference exists, else 0.  The source does
not clamp the subtraction, so the result is an integer. -/
def _getMaxScrollPosition (g : Geom) : Int :=
  if g.wrapperExists then
    (g.wrapperScrollHeight : Int) - (g.wrapperViewportHeight : Int)
  else 0

/-- _needsVerticalScrollBar. -/
def _needsVerticalScrollBar (g : Geom) : Bool :=
  decide (_getMaxScrollPosition g > 0)

/-- _getEntireHeaderHeight: title height plus header height, each taken
as 0 when the aggregation does not exist. -/
def _getEntireHeaderHeight (g : Geom) : Nat :=
  (if g.titleExists then g.titleHeight else 0) +
    (if g.headerExists then g.headerHeight else 0)

/-- _headerBiggerThanAllowedToExpandWithACommand. -/
def _headerBiggerThanAllowedToExpandWithACommand (g : Geom) : Bool :=
  decide (_getEntireHeaderHeight g > g.ownHeight)

/-- _headerBiggerThanAllowedToPin, for a numeric control height argument
(the fallback for a non-numeric argument is not modelled: every modelled
caller passes the resize event height).  The source compares the entire
header height against 0.6 times the control height; both sides are
scaled by 5 here to stay in the integers, and the lemma
headerBiggerThanAllowedToPin_spec below proves this equal to the
comparison against the rational source constant. -/
def _headerBiggerThanAllowedToPin (g : Geom) (iControlHeight : Nat) : Bool :=
  decide (5 * _getEntireHeaderHeight g > 3 * iControlHeight)

/-- _headerBiggerThanAllowedToBeFixed, scaled by 5 exactly as
_headerBiggerThanAllowedToPin; headerBiggerThanAllowedToBeFixed_spec
relates it to the rational source constant. -/
def _headerBiggerThanAllowedToBeFixed (g : Geom) : Bool :=
  decide (5 * _getEntireHeaderHeight g > 3 * g.ownHeight)

/-- _shouldSnap. -/
def _shouldSnap (g : Geom) (s : State) : Bool :=
  !_headerAlwaysExpanded s &&
    decide (_getScrollPosition g s > _getSnappingHeight g) &&
    s.headerExpanded && !s.pinned

/-- _shouldExpand. -/
def _shouldExpand (g : Geom) (s : State) : Bool :=
  !_headerAlwaysExpanded s &&
    decide (_getScrollPosition g s < _getSnappingHeight g) &&
    !s.headerExpanded && !s.pinned

/-- _headerScrolledOut. -/
def _headerScrolledOut (g : Geom) (s : State) : Bool :=
  decide (_getScrollPosition g s > _getSnappingHeight g)

/-- _headerSnapAllowed. -/
def _headerSnapAllowed (s : State) : Bool :=
  !_headerAlwaysExpanded s && s.headerExpanded && !s.pinned

/-- _canSnapHeaderOnScroll. -/
def _canSnapHeaderOnScroll (g : Geom) : Bool :=
  decide (_getMaxScrollPosition g > (_getSnappingHeight g + 1 : Nat))

/-- _moveHeaderToContentArea: prepends the header DOM to the wrapper and
clears the in-title-area flag, when the header exists. -/
def _moveHeaderToContentArea (g : Geom) (s : State) : State :=
  if g.headerExists then {s with headerInTitleArea := false} else s

/-- _moveHeaderToTitleArea. -/
def _moveHeaderToTitleArea (g : Geom) (s : State) : State :=
  if g.headerExists then {s with headerInTitleArea := true} else s

/-- _setScrollPosition: writes the wrapper scrollTop and, on desktop,
the scroll bar position.  The scroll events this raises are delivered as
separate steps of a trace, not synchronously. -/
def _setScrollPosition (g : Geom) (pos : Nat) (s : State) : State :=
  if g.wrapperExists then
    let s1 := {s with wrapperScrollTop := pos}
    if g.desktop then {s1 with scrollBarPosition := pos} else s1
  else s

/-- _scrollToSnapHeader. -/
def _scrollToSnapHeader (g : Geom) (s : State) : State :=
  _setScrollPosition g (_getSnappingHeight g + 1) s

/-- _snapHeader: aborts silently when pinned; otherwise toggles the
title sub-regions, optionally moves the header to the content area, and
only then checks the cached title area reference - when that is missing
it warns and leaves headerExpanded and the snapped class untouched. -/
def _snapHeader (bAppendHeaderToContent : Bool) (g : Geom) (s : State) : State :=
  if s.pinned then s
  else
    let s1 :=
      if g.titleExists then
        let sa := if g.expandedContentExists then {s with showExpandContent := false} else s
        let sb := if g.snappedContentExists then {sa with showSnapContent := true} else sa
        if bAppendHeaderToContent then _moveHeaderToContentArea g sb else sb
      else s
    if !g.titleAreaExists then warn s1 warnSnapNoTitle
    else {s1 with headerExpanded := false, titleSnapped := true}

/-- _expandHeader: the mirror of _snapHeader, with no pinned guard. -/
def _expandHeader (bAppendHeaderToTitle : Bool) (g : Geom) (s : State) : State :=
  let s1 :=
    if g.titleExists then
      let sa := if g.expandedContentExists then {s with showExpandContent := true} else s
      let sb := if g.snappedContentExists then {sa with showSnapContent := false} else sa
      if bAppendHeaderToTitle then _moveHeaderToTitleArea g sb else sb
    else s
  if !g.titleAreaExists then warn s1 warnExpandNoTitle
  else {s1 with headerExpanded := true, titleSnapped := false}

/-- _measureScrollBarOffsetHeight: returns the offset height and the
possibly mutated state - in the measuring branch the source really
snaps the header (with append) and then re-expands it (without append)
when _shouldExpand holds for the snapped state.  The initial
bSnapped is captured before any mutation. -/
def _measureScrollBarOffsetHeight (g : Geom) (s : State) : State × Nat :=
  let bSnapped := !s.headerExpanded
  if _headerAlwaysExpanded s || s.pinned then (s, g.titleAreaHeight)
  else if bSnapped || !g.titleExists || !_canSnapHeaderOnScroll g then (s, g.titleHeight)
  else
    let s1 := _snapHeader true g s
    let s2 := if _shouldExpand g s1 && !bSnapped then _expandHeader false g s1 else s1
    (s2, g.titleHeight)

/-- _updateScrollBar: desktop only and only with a cached wrapper;
measures the offset height (which can itself snap and re-expand the
header), then toggles the scroll bar hidden class and the page scroll
class.  The scroll bar content size string and the two zero-delay
follow-ups (_updateScrollBarOffset, _updateFitContainer) only touch CSS
paddings and a fit-container class and are not modelled. -/
def _updateScrollBar (g : Geom) (s : State) : State :=
  if !g.desktop || !g.wrapperExists then s
  else
    let bScrollBarNeeded := _needsVerticalScrollBar g
    let p := _measureScrollBarOffsetHeight g s
    {p.1 with scrollBarHidden := !bScrollBarNeeded, withScrollClass := bScrollBarNeeded}

/-- _toggleHeaderVisibility: reads the current headerExpanded, aborts
when pinned, mirrors the sub-region visibility, and hides or shows the
header DOM followed by a scroll bar update. -/
def _toggleHeaderVisibility (bShow : Bool) (g : Geom) (s : State) : State :=
  let bExpanded := s.headerExpanded
  if s.pinned then s
  else
    let s1 :=
      if g.titleExists then
        {s with showExpandContent := bExpanded, showSnapContent := !bExpanded}
      else s
    if g.headerExists then
      _updateScrollBar g {s1 with headerHidden := !bShow}
    else s1

/-- _toggleHeader: the scroll-driven evaluation.  The ARIA update after
a snap or expand is not modelled. -/
def _toggleHeader (g : Geom) (s : State) : State :=
  if _shouldSnap g s then _snapHeader true g s
  else if _shouldExpand g s then _expandHeader false g s
  else if !s.pinned && s.headerInTitleArea then _moveHeaderToContentArea g s
  else s

/-- _pin: only when not yet pinned - sets the flag, forces the header
into the title area and refreshes the scroll bar.  The ARIA pin button
update is not modelled. -/
def _pin (g : Geom) (s : State) : State :=
  if !s.pinned then
    _updateScrollBar g (_moveHeaderToTitleArea g {s with pinned := true})
  else s

/-- _unPin: clears the pinned flag only when it is set; the only other
effect in the source is the ARIA pin button update. -/
def _unPin (s : State) : State :=
  if s.pinned then {s with pinned := false} else s

/-- _onPinUnpinButtonPress (the focus restore is not modelled). -/
def _onPinUnpinButtonPress (g : Geom) (s : State) : State :=
  if s.pinned then _unPin s else _pin g s

/-- _titleExpandCollapseWhenAllowed: the command-triggered toggle,
raised by a title press or by the public setHeaderExpanded setter. -/
def _titleExpandCollapseWhenAllowed (g : Geom) (s : State) : State :=
  if _headerBiggerThanAllowedToExpandWithACommand g then
    warn s warnCommandTooTall
  else if _headerAlwaysExpanded s || !_needsVerticalScrollBar g then
    if !s.headerExpanded then
      _toggleHeaderVisibility true g (_expandHeader false g s)
    else
      _toggleHeaderVisibility false g (_snapHeader false g s)
  else if !s.headerExpanded then
    _expandHeader true g {s with expandingWithAClick := true}
  else if _headerSnapAllowed s then
    if _headerScrolledOut g s then
      _snapHeader true g s
    else if _canSnapHeaderOnScroll g then
      _scrollToSnapHeader g s
    else
      warn s warnSnapNotEnoughContent
  else s

/-- setHeaderAlwaysExpanded: writes the property and, when enabling,
also forces the headerExpanded property to true. -/
def setHeaderAlwaysExpanded (bHeaderAlwaysExpanded : Bool) (s : State) : State :=
  let s1 := {s with headerAlwaysExpanded := bHeaderAlwaysExpanded}
  if bHeaderAlwaysExpanded then {s1 with headerExpanded := true} else s1

/-- setHeaderExpanded: a no-op when the property already has the
requested value, else it runs the command toggle. -/
def setHeaderExpanded (bHeaderExpanded : Bool) (g : Geom) (s : State) : State :=
  if s.headerExpanded = bHeaderExpanded then s
  else _titleExpandCollapseWhenAllowed g s

/-- _shouldOverrideHeaderAlwaysExpanded. -/
def _shouldOverrideHeaderAlwaysExpanded (g : Geom) (s : State) : Bool :=
  !g.desktop && _headerBiggerThanAllowedToBeFixed g && _headerAlwaysExpanded s

/-- _overrideHeaderAlwaysExpanded: recomputes the override flag on every
call - it is cleared again whenever the override condition does not
hold at call time. -/
def _overrideHeaderAlwaysExpanded (g : Geom) (s : State) : State :=
  if !_shouldOverrideHeaderAlwaysExpanded g s then
    {s with headerBiggerThanAllowedHeight := false}
  else
    _updateScrollBar g
      (_moveHeaderToContentArea g {s with headerBiggerThanAllowedHeight := true})

/-- Guard in onAfterRendering under which the zero-delay call of
_overrideHeaderAlwaysExpanded is scheduled (and the pin button hidden):
_headerAlwaysExpanded() and an existing header aggregation. -/
def onAfterRenderingSchedulesOverride (g : Geom) (s : State) : Bool :=
  _headerAlwaysExpanded s && g.headerExists

/-- _onResize: unpins and hides the pin affordance when the header got
too tall for pinning or on a phone, else shows the pin affordance; then
refreshes the scroll bar.  The media class update from the event width
is presentation-only and not modelled. -/
def _onResize (g : Geom) (sizeHeight : Nat) (s : State) : State :=
  let s1 :=
    if !_headerAlwaysExpanded s && g.headerExists then
      if _headerBiggerThanAllowedToPin g sizeHeight || g.phone then
        {(_unPin s) with pinButtonVisible := false}
      else
        {s with pinButtonVisible := true}
    else s
  _updateScrollBar g s1

/-- _onWrapperScroll: the native scroll event of the content wrapper,
arriving after the wrapper has scrolled to position t (the event target
scrollTop).  On desktop it may consume the allowCustomScroll echo flag,
else it arms allowInnerDiv and mirrors the position to the fake scroll
bar. -/
def _onWrapperScroll (g : Geom) (t : Nat) (s : State) : State :=
  let s0 := {s with wrapperScrollTop := t}
  let s1 := if !g.desktop || !s0.expandingWithAClick then _toggleHeader g s0 else s0
  if g.desktop then
    if s1.allowCustomScroll && decide (t > 0) then
      {s1 with allowCustomScroll := false}
    else
      {s1 with
        allowInnerDiv := true, scrollBarPosition := t,
        withScrollClass := _needsVerticalScrollBar g}
  else s1

/-- _onScrollBarScroll: the synthetic scroll event of the fake scroll
bar.  It may consume the allowInnerDiv echo flag, else it arms
allowCustomScroll and mirrors the scroll bar position to the wrapper. -/
def _onScrollBarScroll (g : Geom) (s : State) : State :=
  let s1 := _toggleHeader g s
  if s1.allowInnerDiv then
    {s1 with allowInnerDiv := false}
  else
    let s2 := {s1 with allowCustomScroll := true}
    if g.wrapperExists then {s2 with wrapperScrollTop := s2.scrollBarPosition} else s2

/-- Interleavings of the two scroll sources, starting from s0, in which
every wrapper scroll event reports a positive scrollTop.  (A wrapper
scroll with scrollTop 0 is exactly the case that breaks the one-armed
flag discipline, see the counterexample for the scroll-echo claim.) -/
inductive ScrollReach (g : Geom) (s0 : State) : State → Prop
  | refl : ScrollReach g s0 s0
  | wrapper (t : State) (n : Nat) (h : ScrollReach g s0 t) (hn : 0 < n) :
      ScrollReach g s0 (_onWrapperScroll g n t)
  | scrollbar (t : State) (h : ScrollReach g s0 t) :
      ScrollReach g s0 (_onScrollBarScroll g t)

/-
Concrete geometries and states used by the counterexamples and
witnesses below.
-/

/-- Non-desktop geometry with all parts present and no scrollable
content (the wrapper reference is absent, so no vertical scroll bar is
needed). -/
def gNoScroll : Geom where
  desktop := false
  phone := false
  titleExists := true
  headerExists := true
  titleAreaExists := true
  wrapperExists := false
  expandedContentExists := true
  snappedContentExists := true
  titleHeight := 10
  headerHeight := 50
  titleAreaHeight := 60
  ownHeight := 400
  wrapperScrollHeight := 0
  wrapperViewportHeight := 0

/-- Non-desktop geometry with all parts present and plenty of
scrollable content. -/
def gScroll : Geom where
  desktop := false
  phone := false
  titleExists := true
  headerExists := true
  titleAreaExists := true
  wrapperExists := true
  expandedContentExists := true
  snappedContentExists := true
  titleHeight := 10
  headerHeight := 100
  titleAreaHeight := 110
  ownHeight := 400
  wrapperScrollHeight := 1000
  wrapperViewportHeight := 500

/-- A pinned state whose header is snapped (reachable by pressing the
pin button while the header is snapped). -/
def sPinnedSnapped : State :=
  {initState with
    pinned := true, headerExpanded := false, headerInTitleArea := true,
    showExpandContent := false, showSnapContent := true, titleSnapped := true}

/-- Non-desktop geometry whose combined title and header height (70) is
above 60 percent of the control height (100), as in the first-layout
override scenario. -/
def gOverride : Geom where
  desktop := false
  phone := false
  titleExists := true
  headerExists := true
  titleAreaExists := true
  wrapperExists := false
  expandedContentExists := true
  snappedContentExists := true
  titleHeight := 50
  headerHeight := 20
  titleAreaHeight := 70
  ownHeight := 100
  wrapperScrollHeight := 0
  wrapperViewportHeight := 0

/-- Geometry of an unrendered control: the title aggregation exists but
the title area DOM reference has not been cached yet. -/
def gNoTitleArea : Geom where
  desktop := false
  phone := false
  titleExists := true
  headerExists := true
  titleAreaExists := false
  wrapperExists := false
  expandedContentExists := true
  snappedContentExists := true
  titleHeight := 10
  headerHeight := 50
  titleAreaHeight := 0
  ownHeight := 400
  wrapperScrollHeight := 0
  wrapperViewportHeight := 0

/-- Geometry of the too-tall-for-command scenario: header height 500,
control height 400. -/
def gTooTall : Geom where
  desktop := false
  phone := false
  titleExists := true
  headerExists := true
  titleAreaExists := true
  wrapperExists := true
  expandedContentExists := true
  snappedContentExists := true
  titleHeight := 0
  headerHeight := 500
  titleAreaHeight := 500
  ownHeight := 400
  wrapperScrollHeight := 1000
  wrapperViewportHeight := 400

/-- Desktop geometry for the scroll-echo traces. -/
def gDesktop : Geom where
  desktop := true
  phone := false
  titleExists := true
  headerExists := true
  titleAreaExists := true
  wrapperExists := true
  expandedContentExists := true
  snappedContentExists := true
  titleHeight := 10
  headerHeight := 100
  titleAreaHeight := 110
  ownHeight := 400
  wrapperScrollHeight := 1000
  wrapperViewportHeight := 500

/-- Geometry whose wrapper viewport (200) is taller than its scrollable
content (100). -/
def gShortContent : Geom where
  desktop := true
  phone := false
  titleExists := true
  headerExists := true
  titleAreaExists := true
  wrapperExists := true
  expandedContentExists := true
  snappedContentExists := true
  titleHeight := 10
  headerHeight := 50
  titleAreaHeight := 60
  ownHeight := 400
  wrapperScrollHeight := 100
  wrapperViewportHeight := 200

/-- Geometry with a little scrollable content (maximum scroll position
50): a scroll bar is needed, but scrolling cannot reach past snapping
height plus one. -/
def gSmallScroll : Geom :=
  {gScroll with wrapperScrollHeight := 550}

/-- State after the first-layout override has latched: the configured
headerAlwaysExpanded is still true, the override flag is set. -/
def sOverridden : State :=
  {initState with headerAlwaysExpanded := true, headerBiggerThanAllowedHeight := true}

/-
Frame lemmas: which operations leave which state fields untouched.
The override flag headerBiggerThanAllowedHeight is written by
_overrideHeaderAlwaysExpanded alone; the two scroll-echo flags are
written by the two scroll handlers alone.
-/

@[simp] theorem warn_hbah (s : State) (m : String) :
    (warn s m).headerBiggerThanAllowedHeight = s.headerBiggerThanAllowedHeight := rfl

@[simp] theorem moveToContent_hbah (g : Geom) (s : State) :
    (_moveHeaderToContentArea g s).headerBiggerThanAllowedHeight =
      s.headerBiggerThanAllowedHeight := by
  unfold _moveHeaderToContentArea; split <;> rfl

@[simp] theorem moveToTitle_hbah (g : Geom) (s : State) :
    (_moveHeaderToTitleArea g s).headerBiggerThanAllowedHeight =
      s.headerBiggerThanAllowedHeight := by
  unfold _moveHeaderToTitleArea; split <;> rfl

@[simp] theorem setScrollPosition_hbah (g : Geom) (p : Nat) (s : State) :
    (_setScrollPosition g p s).headerBiggerThanAllowedHeight =
      s.headerBiggerThanAllowedHeight := by
  unfold _setScrollPosition; split_ifs <;> rfl

@[simp] theorem scrollToSnapHeader_hbah (g : Geom) (s : State) :
    (_scrollToSnapHeader g s).headerBiggerThanAllowedHeight =
      s.headerBiggerThanAllowedHeight := by
  unfold _scrollToSnapHeader; simp

@[simp] theorem snapHeader_hbah (b : Bool) (g : Geom) (s : State) :
    (_snapHeader b g s).headerBiggerThanAllowedHeight =
      s.headerBiggerThanAllowedHeight := by
  unfold _snapHeader; split_ifs <;> simp

@[simp] theorem expandHeader_hbah (b : Bool) (g : Geom) (s : State) :
    (_expandHeader b g s).headerBiggerThanAllowedHeight =
      s.headerBiggerThanAllowedHeight := by
  unfold _expandHeader; split_ifs <;> simp

@[simp] theorem measureScrollBarOffsetHeight_hbah (g : Geom) (s : State) :
    (_measureScrollBarOffsetHeight g s).1.headerBiggerThanAllowedHeight =
      s.headerBiggerThanAllowedHeight := by
  simp only [_measureScrollBarOffsetHeight]; split_ifs <;> simp

@[simp] theorem updateScrollBar_hbah (g : Geom) (s : State) :
    (_updateScrollBar g s).headerBiggerThanAllowedHeight =
      s.headerBiggerThanAllowedHeight := by
  unfold _updateScrollBar; split_ifs <;> simp

@[simp] theorem toggleHeaderVisibility_hbah (b : Bool) (g : Geom) (s : State) :
    (_toggleHeaderVisibility b g s).headerBiggerThanAllowedHeight =
      s.headerBiggerThanAllowedHeight := by
  unfold _toggleHeaderVisibility; split_ifs <;> simp

@[simp] theorem toggleHeader_hbah (g : Geom) (s : State) :
    (_toggleHeader g s).headerBiggerThanAllowedHeight =
      s.headerBiggerThanAllowedHeight := by
  unfold _toggleHeader; split_ifs <;> simp

@[simp] theorem pin_hbah (g : Geom) (s : State) :
    (_pin g s).headerBiggerThanAllowedHeight = s.headerBiggerThanAllowedHeight := by
  unfold _pin; split_ifs <;> simp

@[simp] theorem unPin_hbah (s : State) :
    (_unPin s).headerBiggerThanAllowedHeight = s.headerBiggerThanAllowedHeight := by
  unfold _unPin; split_ifs <;> rfl

@[simp] theorem titleExpandCollapse_hbah (g : Geom) (s : State) :
    (_titleExpandCollapseWhenAllowed g s).headerBiggerThanAllowedHeight =
      s.headerBiggerThanAllowedHeight := by
  unfold _titleExpandCollapseWhenAllowed; split_ifs <;> simp

@[simp] theorem onWrapperScroll_hbah (g : Geom) (t : Nat) (s : State) :
    (_onWrapperScroll g t s).headerBiggerThanAllowedHeight =
      s.headerBiggerThanAllowedHeight := by
  simp only [_onWrapperScroll]; split_ifs <;> simp

@[simp] theorem onScrollBarScroll_hbah (g : Geom) (s : State) :
    (_onScrollBarScroll g s).headerBiggerThanAllowedHeight =
      s.headerBiggerThanAllowedHeight := by
  simp only [_onScrollBarScroll]; split_ifs <;> simp

@[simp] theorem onResize_hbah (g : Geom) (n : Nat) (s : State) :
    (_onResize g n s).headerBiggerThanAllowedHeight =
      s.headerBiggerThanAllowedHeight := by
  unfold _onResize; split_ifs <;> simp

@[simp] theorem setHeaderAlwaysExpanded_hbah (b : Bool) (s : State) :
    (setHeaderAlwaysExpanded b s).headerBiggerThanAllowedHeight =
      s.headerBiggerThanAllowedHeight := by
  unfold setHeaderAlwaysExpanded; split_ifs <;> rfl

@[simp] theorem onPinUnpinButtonPress_hbah (g : Geom) (s : State) :
    (_onPinUnpinButtonPress g s).headerBiggerThanAllowedHeight =
      s.headerBiggerThanAllowedHeight := by
  unfold _onPinUnpinButtonPress; split_ifs <;> simp

@[simp] theorem setHeaderExpanded_hbah (b : Bool) (g : Geom) (s : State) :
    (setHeaderExpanded b g s).headerBiggerThanAllowedHeight =
      s.headerBiggerThanAllowedHeight := by
  unfold setHeaderExpanded; split_ifs <;> simp

@[simp] theorem warn_scrollFlags (s : State) (m : String) :
    (warn s m).allowInnerDiv = s.allowInnerDiv ∧
      (warn s m).allowCustomScroll = s.allowCustomScroll := ⟨rfl, rfl⟩

@[simp] theorem moveToContent_scrollFlags (g : Geom) (s : State) :
    (_moveHeaderToContentArea g s).allowInnerDiv = s.allowInnerDiv ∧
      (_moveHeaderToContentArea g s).allowCustomScroll = s.allowCustomScroll := by
  unfold _moveHeaderToContentArea; split <;> exact ⟨rfl, rfl⟩

@[simp] theorem moveToTitle_scrollFlags (g : Geom) (s : State) :
    (_moveHeaderToTitleArea g s).allowInnerDiv = s.allowInnerDiv ∧
      (_moveHeaderToTitleArea g s).allowCustomScroll = s.allowCustomScroll := by
  unfold _moveHeaderToTitleArea; split <;> exact ⟨rfl, rfl⟩

@[simp] theorem snapHeader_scrollFlags (b : Bool) (g : Geom) (s : State) :
    (_snapHeader b g s).allowInnerDiv = s.allowInnerDiv ∧
      (_snapHeader b g s).allowCustomScroll = s.allowCustomScroll := by
  unfold _snapHeader; split_ifs <;> simp

@[simp] theorem expandHeader_scrollFlags (b : Bool) (g : Geom) (s : State) :
    (_expandHeader b g s).allowInnerDiv = s.allowInnerDiv ∧
      (_expandHeader b g s).allowCustomScroll = s.allowCustomScroll := by
  unfold _expandHeader; split_ifs <;> simp

@[simp] theorem toggleHeader_scrollFlags (g : Geom) (s : State) :
    (_toggleHeader g s).allowInnerDiv = s.allowInnerDiv ∧
      (_toggleHeader g s).allowCustomScroll = s.allowCustomScroll := by
  unfold _toggleHeader; split_ifs <;> simp

theorem toggleHeader_headerExpanded_of_alwaysExpanded (g : Geom) (s : State)
    (h : _headerAlwaysExpanded s = true) :
    (_toggleHeader g s).headerExpanded = s.headerExpanded := by
  unfold _toggleHeader _shouldSnap _shouldExpand _moveHeaderToContentArea
  rw [h]
  split_ifs <;> simp_all

/-
Claims.
-/

/-- C1, counterexample: in the pinned snapped state sPinnedSnapped the
command toggle _titleExpandCollapseWhenAllowed performs an expand
transition although pinned is true: headerExpanded flips to true and
the snapped visual class is removed, because _expandHeader carries no
pinned guard. -/
theorem C1_cex :
    sPinnedSnapped.pinned = true ∧
    sPinnedSnapped.headerExpanded = false ∧
    sPinnedSnapped.titleSnapped = true ∧
    (_titleExpandCollapseWhenAllowed gNoScroll sPinnedSnapped).headerExpanded = true ∧
    (_titleExpandCollapseWhenAllowed gNoScroll sPinnedSnapped).titleSnapped = false := by
  decide

/-- C1, amended: while pinned is true, the scroll-driven evaluation
_toggleHeader is a complete no-op at every scroll offset, and both
_snapHeader and _toggleHeaderVisibility abort without any state change,
so no snap transition can occur; the expand direction of the original
claim fails because _expandHeader carries no pinned guard (C1_cex). -/
theorem C1_pinned_no_snap (g : Geom) (s : State) (b : Bool) (h : s.pinned = true) :
    _toggleHeader g s = s ∧ _snapHeader b g s = s ∧ _toggleHeaderVisibility b g s = s := by
  refine ⟨?_, ?_, ?_⟩
  · simp [_toggleHeader, _shouldSnap, _shouldExpand, h]
  · simp [_snapHeader, h]
  · simp [_toggleHeaderVisibility, h]

/-- C1, witness: the no-snap statement evaluated in the concrete pinned
state, with scrollable geometry. -/
theorem C1_pinned_no_snap_witness :
    _toggleHeader gScroll sPinnedSnapped = sPinnedSnapped ∧
    _snapHeader true gScroll sPinnedSnapped = sPinnedSnapped ∧
    _toggleHeaderVisibility true gScroll sPinnedSnapped = sPinnedSnapped :=
  C1_pinned_no_snap gScroll sPinnedSnapped true rfl

/-- C2, counterexample: from the reachable state
setHeaderAlwaysExpanded true initState (headerAlwaysExpanded true,
override flag false, headerExpanded true), the command toggle sets
headerExpanded to false although _headerAlwaysExpanded still holds
afterwards: in the always-expanded branch the toggle hides the header by
snapping it, violating the claimed invariant. -/
theorem C2_cex :
    _headerAlwaysExpanded (setHeaderAlwaysExpanded true initState) = true ∧
    (setHeaderAlwaysExpanded true initState).headerExpanded = true ∧
    (_titleExpandCollapseWhenAllowed gScroll (setHeaderAlwaysExpanded true initState)).headerExpanded = false ∧
    _headerAlwaysExpanded (_titleExpandCollapseWhenAllowed gScroll (setHeaderAlwaysExpanded true initState)) = true := by
  decide

/-- C2, amended: while _headerAlwaysExpanded holds (configuration flag
true and override flag false), the scroll-driven evaluation and both
scroll handlers preserve headerExpanded at every scroll offset; the
command toggle however can still set headerExpanded to false under the
same condition (C2_cex). -/
theorem C2_alwaysExpanded_scroll_keeps_expanded (g : Geom) (t : Nat) (s : State)
    (h : _headerAlwaysExpanded s = true) :
    (_toggleHeader g s).headerExpanded = s.headerExpanded ∧
    (_onWrapperScroll g t s).headerExpanded = s.headerExpanded ∧
    (_onScrollBarScroll g s).headerExpanded = s.headerExpanded := by
  have h2 : _headerAlwaysExpanded {s with wrapperScrollTop := t} = true := h
  refine ⟨toggleHeader_headerExpanded_of_alwaysExpanded g s h, ?_, ?_⟩
  · simp only [_onWrapperScroll]
    split_ifs <;>
      simp [toggleHeader_headerExpanded_of_alwaysExpanded g _ h2]
  · simp only [_onScrollBarScroll]
    split_ifs <;>
      simp [toggleHeader_headerExpanded_of_alwaysExpanded g s h]

/-- C2, witness: in the reachable always-expanded state, a wrapper
scroll to offset 101 (above snapping height 100 of gScroll) does not
change headerExpanded. -/
theorem C2_alwaysExpanded_scroll_keeps_expanded_witness :
    (_toggleHeader gScroll (setHeaderAlwaysExpanded true initState)).headerExpanded =
      (setHeaderAlwaysExpanded true initState).headerExpanded ∧
    (_onWrapperScroll gScroll 101 (setHeaderAlwaysExpanded true initState)).headerExpanded =
      (setHeaderAlwaysExpanded true initState).headerExpanded ∧
    (_onScrollBarScroll gScroll (setHeaderAlwaysExpanded true initState)).headerExpanded =
      (setHeaderAlwaysExpanded true initState).headerExpanded :=
  C2_alwaysExpanded_scroll_keeps_expanded gScroll 101 (setHeaderAlwaysExpanded true initState) (by decide)

/-- C3, counterexample: after the override check has set
headerBiggerThanAllowedHeight to true (inner call), a further call of
_overrideHeaderAlwaysExpanded resets the flag to false: the function
recomputes the flag on every call instead of latching it, since with
the flag set _headerAlwaysExpanded is false, _shouldOverrideHeaderAlwaysExpanded
fails, and the first branch writes false. -/
theorem C3_cex :
    (_overrideHeaderAlwaysExpanded gOverride (setHeaderAlwaysExpanded true initState)).headerBiggerThanAllowedHeight = true ∧
    (_overrideHeaderAlwaysExpanded gOverride
      (_overrideHeaderAlwaysExpanded gOverride (setHeaderAlwaysExpanded true initState))).headerBiggerThanAllowedHeight = false := by
  decide

/-- C3, amended: once the override flag is set, the normal render path
can no longer reach the reset: onAfterRendering schedules the override
check only when _headerAlwaysExpanded holds, which is false with the
flag set, and every other modelled operation preserves the flag; only a
further direct call of _overrideHeaderAlwaysExpanded (such as a second
check scheduled before the first ran) resets it (C3_cex). -/
theorem C3_flag_persists (g : Geom) (t n : Nat) (b : Bool) (s : State)
    (h : s.headerBiggerThanAllowedHeight = true) :
    onAfterRenderingSchedulesOverride g s = false ∧
    (_toggleHeader g s).headerBiggerThanAllowedHeight = true ∧
    (_titleExpandCollapseWhenAllowed g s).headerBiggerThanAllowedHeight = true ∧
    (_pin g s).headerBiggerThanAllowedHeight = true ∧
    (_unPin s).headerBiggerThanAllowedHeight = true ∧
    (_onPinUnpinButtonPress g s).headerBiggerThanAllowedHeight = true ∧
    (_onWrapperScroll g t s).headerBiggerThanAllowedHeight = true ∧
    (_onScrollBarScroll g s).headerBiggerThanAllowedHeight = true ∧
    (_onResize g n s).headerBiggerThanAllowedHeight = true ∧
    (setHeaderAlwaysExpanded b s).headerBiggerThanAllowedHeight = true ∧
    (setHeaderExpanded b g s).headerBiggerThanAllowedHeight = true := by
  refine ⟨?_, ?_, ?_, ?_, ?_, ?_, ?_, ?_, ?_, ?_, ?_⟩ <;>
    simp [onAfterRenderingSchedulesOverride, _headerAlwaysExpanded, h]

/-- C3, witness: flag persistence evaluated in the concrete overridden
state sOverridden. -/
theorem C3_flag_persists_witness :
    onAfterRenderingSchedulesOverride gOverride sOverridden = false ∧
    (_toggleHeader gOverride sOverridden).headerBiggerThanAllowedHeight = true ∧
    (_titleExpandCollapseWhenAllowed gOverride sOverridden).headerBiggerThanAllowedHeight = true ∧
    (_pin gOverride sOverridden).headerBiggerThanAllowedHeight = true ∧
    (_unPin sOverridden).headerBiggerThanAllowedHeight = true ∧
    (_onPinUnpinButtonPress gOverride sOverridden).headerBiggerThanAllowedHeight = true ∧
    (_onWrapperScroll gOverride 5 sOverridden).headerBiggerThanAllowedHeight = true ∧
    (_onScrollBarScroll gOverride sOverridden).headerBiggerThanAllowedHeight = true ∧
    (_onResize gOverride 7 sOverridden).headerBiggerThanAllowedHeight = true ∧
    (setHeaderAlwaysExpanded false sOverridden).headerBiggerThanAllowedHeight = true ∧
    (setHeaderExpanded false gOverride sOverridden).headerBiggerThanAllowedHeight = true :=
  C3_flag_persists gOverride 5 7 false sOverridden rfl

/-- C4, counterexample: a snap attempt that aborts with the
missing-title warning is not atomic: with the title aggregation present
but the title area reference not yet cached, _snapHeader emits the
warning and leaves headerExpanded alone, but has already hidden the
expanded title sub-region. -/
theorem C4_cex :
    (_snapHeader false gNoTitleArea initState).warnings = [warnSnapNoTitle] ∧
    initState.showExpandContent = true ∧
    (_snapHeader false gNoTitleArea initState).showExpandContent = false := by
  decide

/-- C4, amended: the too-tall abort and the not-enough-content abort of
the command toggle leave the whole controller state unchanged apart
from the warning log, and the missing-title aborts of _snapHeader and
_expandHeader leave headerExpanded and the snapped class unchanged;
those missing-title aborts may however already have changed the title
sub-region visibility and the header location before warning (C4_cex).
No abort raises an exception: all operations are total functions. -/
theorem C4_abort_semantics (g : Geom) (s : State) (b : Bool) :
    (_headerBiggerThanAllowedToExpandWithACommand g = true →
      _titleExpandCollapseWhenAllowed g s = warn s warnCommandTooTall) ∧
    (g.titleAreaExists = false →
      (_snapHeader b g s).headerExpanded = s.headerExpanded ∧
      (_snapHeader b g s).titleSnapped = s.titleSnapped ∧
      (_expandHeader b g s).headerExpanded = s.headerExpanded ∧
      (_expandHeader b g s).titleSnapped = s.titleSnapped) ∧
    (_headerBiggerThanAllowedToExpandWithACommand g = false →
      _headerAlwaysExpanded s = false →
      _needsVerticalScrollBar g = true →
      s.headerExpanded = true →
      s.pinned = false →
      _headerScrolledOut g s = false →
      _canSnapHeaderOnScroll g = false →
      _titleExpandCollapseWhenAllowed g s = warn s warnSnapNotEnoughContent) := by
  refine ⟨?_, ?_, ?_⟩
  · intro h
    simp [_titleExpandCollapseWhenAllowed, h]
  · intro h
    refine ⟨?_, ?_, ?_, ?_⟩ <;>
      cases hp : s.pinned <;> cases ht : g.titleExists <;>
      cases hec : g.expandedContentExists <;> cases hsc : g.snappedContentExists <;>
      cases b <;> cases hh : g.headerExists <;>
      simp [_snapHeader, _expandHeader, _moveHeaderToContentArea,
        _moveHeaderToTitleArea, warn, h, hp, ht, hec, hsc, hh]
  · intro h1 h2 h3 h4 h5 h6 h7
    simp [_titleExpandCollapseWhenAllowed, _headerSnapAllowed, h1, h2, h3, h4, h5, h6, h7]

/-- C4, witness: the three abort shapes evaluated at concrete inputs:
the too-tall geometry, the uncached title area, and the geometry with
too little scrollable content. -/
theorem C4_abort_semantics_witness :
    _titleExpandCollapseWhenAllowed gTooTall initState = warn initState warnCommandTooTall ∧
    (_snapHeader true gNoTitleArea initState).headerExpanded = initState.headerExpanded ∧
    _titleExpandCollapseWhenAllowed gSmallScroll initState = warn initState warnSnapNotEnoughContent :=
  ⟨(C4_abort_semantics gTooTall initState true).1 (by decide),
   ((C4_abort_semantics gNoTitleArea initState true).2.1 (by decide)).1,
   (C4_abort_semantics gSmallScroll initState true).2.2 (by decide) (by decide)
     (by decide) (by decide) (by decide) (by decide) (by decide)⟩

/-- C5: when the combined title and header height exceeds the control
height, the command toggle only logs the too-tall warning: expanded,
pinned, headerInTitleArea, both scroll positions and all modelled
visual state are unchanged, and the warning list is extended by exactly
that message. -/
theorem C5_command_too_tall (g : Geom) (s : State)
    (h : _headerBiggerThanAllowedToExpandWithACommand g = true) :
    _titleExpandCollapseWhenAllowed g s = warn s warnCommandTooTall ∧
    (_titleExpandCollapseWhenAllowed g s).headerExpanded = s.headerExpanded ∧
    (_titleExpandCollapseWhenAllowed g s).pinned = s.pinned ∧
    (_titleExpandCollapseWhenAllowed g s).headerInTitleArea = s.headerInTitleArea ∧
    (_titleExpandCollapseWhenAllowed g s).wrapperScrollTop = s.wrapperScrollTop ∧
    (_titleExpandCollapseWhenAllowed g s).scrollBarPosition = s.scrollBarPosition ∧
    (_titleExpandCollapseWhenAllowed g s).titleSnapped = s.titleSnapped ∧
    (_titleExpandCollapseWhenAllowed g s).headerHidden = s.headerHidden ∧
    (_titleExpandCollapseWhenAllowed g s).showExpandContent = s.showExpandContent ∧
    (_titleExpandCollapseWhenAllowed g s).showSnapContent = s.showSnapContent ∧
    (_titleExpandCollapseWhenAllowed g s).warnings = s.warnings ++ [warnCommandTooTall] := by
  refine ⟨?_, ?_, ?_, ?_, ?_, ?_, ?_, ?_, ?_, ?_, ?_⟩ <;>
    simp [_titleExpandCollapseWhenAllowed, h, warn]

/-- C5, witness: the scenario of the claim, header height 500 and
control height 400 (geometry gTooTall). -/
theorem C5_command_too_tall_witness :
    _titleExpandCollapseWhenAllowed gTooTall initState = warn initState warnCommandTooTall :=
  (C5_command_too_tall gTooTall initState (by decide)).1

/-- C6, counterexample: both reentrancy flags armed at once.  Starting
from the initial state on desktop, a scroll bar scroll arms
allowCustomScroll; when its echo reaches the wrapper with scrollTop 0,
the consume branch (which requires scrollTop > 0) is skipped and the
handler additionally arms allowInnerDiv: after this concrete two-event
interleaving both flags are true. -/
theorem C6_cex :
    (_onWrapperScroll gDesktop 0 (_onScrollBarScroll gDesktop initState)).allowInnerDiv = true ∧
    (_onWrapperScroll gDesktop 0 (_onScrollBarScroll gDesktop initState)).allowCustomScroll = true := by
  decide

/-- C6, amended: in every interleaving of the two scroll handlers in
which each wrapper scroll event arrives with scrollTop > 0, the two
reentrancy flags are never both armed; a wrapper scroll event with
scrollTop 0 while allowCustomScroll is armed breaks this discipline and
makes the both-armed state reachable (C6_cex). -/
theorem C6_flags_invariant (g : Geom) (s0 s : State)
    (hreach : ScrollReach g s0 s)
    (h0 : (s0.allowInnerDiv && s0.allowCustomScroll) = false) :
    (s.allowInnerDiv && s.allowCustomScroll) = false := by
  induction hreach with
  | refl => exact h0
  | wrapper t n h hn ih =>
      obtain ⟨e1, e2⟩ := toggleHeader_scrollFlags g {t with wrapperScrollTop := n}
      simp only [_onWrapperScroll]
      split_ifs <;> simp_all
  | scrollbar t h ih =>
      obtain ⟨e1, e2⟩ := toggleHeader_scrollFlags g t
      simp only [_onScrollBarScroll]
      split_ifs <;> simp_all

/-- C6, witness: a one-step interleaving (a wrapper scroll at positive
offset from the initial state) presents no armed pair. -/
theorem C6_flags_invariant_witness :
    ((_onWrapperScroll gDesktop 101 initState).allowInnerDiv &&
      (_onWrapperScroll gDesktop 101 initState).allowCustomScroll) = false :=
  C6_flags_invariant gDesktop initState (_onWrapperScroll gDesktop 101 initState)
    (ScrollReach.wrapper initState 101 ScrollReach.refl (by decide)) rfl

/-- C7, counterexample: _getMaxScrollPosition is not clamped at 0.
With the wrapper present, scroll height 100 and viewport height 200 it
returns the negative value -100. -/
theorem C7_cex :
    _getMaxScrollPosition gShortContent = -100 ∧ _getMaxScrollPosition gShortContent < 0 := by
  decide

/-- C7, amended: _getMaxScrollPosition is the unclamped difference of
the wrapper scroll height and the ceiled viewport height when the
wrapper reference exists, and 0 when it is absent; it is negative
exactly when the wrapper exists and the viewport is taller than the
scrollable content. -/
theorem C7_maxScrollPosition (g : Geom) :
    (g.wrapperExists = true →
      _getMaxScrollPosition g =
        (g.wrapperScrollHeight : Int) - (g.wrapperViewportHeight : Int)) ∧
    (g.wrapperExists = false → _getMaxScrollPosition g = 0) ∧
    (_getMaxScrollPosition g < 0 ↔
      g.wrapperExists = true ∧ g.wrapperScrollHeight < g.wrapperViewportHeight) := by
  unfold _getMaxScrollPosition
  cases hw : g.wrapperExists <;> simp [hw]

/-- C7, witness: the unclamped difference evaluated at the short
content geometry. -/
theorem C7_maxScrollPosition_witness :
    _getMaxScrollPosition gShortContent = (100 : Int) - (200 : Int) :=
  (C7_maxScrollPosition gShortContent).1 rfl

/-- C8: with the header expanded, not pinned, headerAlwaysExpanded off
and the title area present, at scroll offset snapping height plus one
the scroll-driven evaluation snaps the header: headerExpanded becomes
false and the snapped visual class is set on the title area. -/
theorem C8_snap_on_scroll (g : Geom) (s : State)
    (h1 : s.headerExpanded = true) (h2 : s.pinned = false)
    (h3 : s.headerAlwaysExpanded = false) (h4 : g.titleAreaExists = true)
    (h5 : _getScrollPosition g s = _getSnappingHeight g + 1) :
    (_toggleHeader g s).headerExpanded = false ∧
    (_toggleHeader g s).titleSnapped = true := by
  have hs : _shouldSnap g s = true := by
    simp [_shouldSnap, _headerAlwaysExpanded, h1, h2, h3, h5]
  simp [_toggleHeader, hs, _snapHeader, h2, h4, _moveHeaderToContentArea]

/-- C8, witness: the scenario of the claim with snapping height 100 and
scroll offset 101, starting from the initial expanded state. -/
theorem C8_snap_on_scroll_witness :
    (_toggleHeader gScroll {initState with wrapperScrollTop := 101}).headerExpanded = false ∧
    (_toggleHeader gScroll {initState with wrapperScrollTop := 101}).titleSnapped = true :=
  C8_snap_on_scroll gScroll {initState with wrapperScrollTop := 101}
    rfl rfl rfl rfl (by decide)

/-- C9: _unPin clears the pinned flag only when it is set - it is a
no-op when already unpinned - and in either case changes nothing else:
the header location, the expanded flag and every modelled visual state
field are untouched. -/
theorem C9_unPin_frame (s : State) :
    (_unPin s).pinned = false ∧
    (s.pinned = false → _unPin s = s) ∧
    (_unPin s).headerAlwaysExpanded = s.headerAlwaysExpanded ∧
    (_unPin s).headerExpanded = s.headerExpanded ∧
    (_unPin s).headerInTitleArea = s.headerInTitleArea ∧
    (_unPin s).expandingWithAClick = s.expandingWithAClick ∧
    (_unPin s).headerBiggerThanAllowedHeight = s.headerBiggerThanAllowedHeight ∧
    (_unPin s).showExpandContent = s.showExpandContent ∧
    (_unPin s).showSnapContent = s.showSnapContent ∧
    (_unPin s).titleSnapped = s.titleSnapped ∧
    (_unPin s).headerHidden = s.headerHidden ∧
    (_unPin s).pinButtonVisible = s.pinButtonVisible ∧
    (_unPin s).wrapperScrollTop = s.wrapperScrollTop ∧
    (_unPin s).scrollBarPosition = s.scrollBarPosition ∧
    (_unPin s).scrollBarHidden = s.scrollBarHidden ∧
    (_unPin s).withScrollClass = s.withScrollClass ∧
    (_unPin s).allowInnerDiv = s.allowInnerDiv ∧
    (_unPin s).allowCustomScroll = s.allowCustomScroll ∧
    (_unPin s).warnings = s.warnings := by
  unfold _unPin
  split_ifs with h <;> simp_all

/-- C9, witness: unpinning the pinned snapped state clears only the
pinned flag, and unpinning the initial unpinned state is a no-op. -/
theorem C9_unPin_frame_witness :
    (_unPin sPinnedSnapped).pinned = false ∧ _unPin initState = initState :=
  ⟨(C9_unPin_frame sPinnedSnapped).1, (C9_unPin_frame initState).2.1 rfl⟩

/-- C10: the public setter setHeaderAlwaysExpanded with argument true
also writes the headerExpanded property to true, whatever the prior
state, so getHeaderExpanded returns true right after the call. -/
theorem C10_setHeaderAlwaysExpanded_expands (s : State) :
    (setHeaderAlwaysExpanded true s).headerExpanded = true ∧
    (setHeaderAlwaysExpanded true s).headerAlwaysExpanded = true := by
  simp [setHeaderAlwaysExpanded]

end DynamicPage
